import Mathlib

set_option maxRecDepth 8000

/-!
Shallow embedding of the device-share utilities of the koordinator scheduler
(src/pkg/scheduler/plugins/deviceshare/utils.go), of the reservation
utilities (src/pkg/util/reservation/reservation.go), and of the memory
statistics parser contract fixed by its test (src/unnamed/part_000).

Go `resource.Quantity` values are embedded as their `.Value()` (an int64)
using `Int`.  Go's truncated integer division `/` and remainder `%` are
rendered as `Int.tdiv` and `Int.tmod`; the one int64 product that can
wrap (in memRatioToBytes) carries an explicit two's-complement wrap, and
the one float64 computation (in memBytesToRatio) is embedded as an exact
simulation of IEEE-754 binary64 round-to-nearest-even arithmetic over
the rationals.
-/

namespace Koordinator

/-- DeviceType mirrors schedulingv1alpha1.DeviceType restricted to the
variants used by the embedded code. -/
inductive DeviceType where
  | GPU
  | RDMA
  | FPGA
deriving DecidableEq

/-- Resource name constants from apis/extension, embedded as strings. -/
def ResourceNvidiaGPU : String := "nvidia.com/gpu"

def ResourceGPU : String := "koordinator.sh/gpu"

def ResourceGPUCore : String := "koordinator.sh/gpu-core"

def ResourceGPUMemory : String := "koordinator.sh/gpu-memory"

def ResourceGPUMemoryRatio : String := "koordinator.sh/gpu-memory-ratio"

def ResourceRDMA : String := "koordinator.sh/rdma"

def ResourceFPGA : String := "koordinator.sh/fpga"

/-- A corev1.ResourceList restricted to the device resource vocabulary.
Each recognized device resource name is one optional field (`none` means
the name is absent from the map, `some v` means it is present with
quantity value `v`); `others` carries the entries of the map whose names
are outside the device vocabulary, so that emptiness of the whole Go map
is representable. -/
structure ResourceList where
  nvidiaGPU : Option Int := none
  koordGPU : Option Int := none
  gpuCore : Option Int := none
  gpuMemory : Option Int := none
  gpuMemoryRatio : Option Int := none
  rdma : Option Int := none
  fpga : Option Int := none
  others : List (String × Int) := []
deriving DecidableEq

/-- Emptiness of the underlying Go map: every recognized name is absent and
there are no other entries (Go: `podRequest == nil || len(podRequest) == 0`). -/
def ResourceList.isEmptyRL (r : ResourceList) : Bool :=
  r.nvidiaGPU.isNone && r.koordGPU.isNone && r.gpuCore.isNone &&
  r.gpuMemory.isNone && r.gpuMemoryRatio.isNone && r.rdma.isNone &&
  r.fpga.isNone && r.others.isEmpty

/-- Bit constants from utils.go (`1 << iota`). -/
def NvidiaGPUExist : Nat := 1

def KoordGPUExist : Nat := 2

def GPUCoreExist : Nat := 4

def GPUMemoryExist : Nat := 8

def GPUMemoryRatioExist : Nat := 16

/-- Error outcomes of the validation functions in utils.go, one variant per
distinct `fmt.Errorf` site kind. -/
inductive DeviceError where
  | emptyRequest
  | invalidQuantity (name : String) (value : Int)
  | invalidCombination
  | unsupportedDeviceType
deriving DecidableEq

/-- Final combination test of ValidateGPURequest (utils.go lines 114-121):
returns the accumulated mask with no error exactly when the mask is one of
the four whitelisted combinations, otherwise the invalid-combination error. -/
def combinationCheck (c : Nat) : Nat × Option DeviceError :=
  if c = NvidiaGPUExist ∨ c = KoordGPUExist ∨
      c = (GPUCoreExist ||| GPUMemoryExist) ∨
      c = (GPUCoreExist ||| GPUMemoryRatioExist) then
    (c, none)
  else
    (c, some DeviceError.invalidCombination)

/-- Stage of ValidateGPURequest checking koordinator.sh/gpu-memory-ratio
(utils.go lines 107-112). -/
def gpuMemoryRatioCheck (r : ResourceList) (c : Nat) : Nat × Option DeviceError :=
  match r.gpuMemoryRatio with
  | some gpuMemRatio =>
    if 100 < gpuMemRatio ∧ Int.tmod gpuMemRatio 100 ≠ 0 then
      (c, some (DeviceError.invalidQuantity ResourceGPUMemoryRatio gpuMemRatio))
    else
      combinationCheck (c ||| GPUMemoryRatioExist)
  | none => combinationCheck c

/-- Stage of ValidateGPURequest checking koordinator.sh/gpu-memory
(utils.go lines 104-106); presence only, no quantity check. -/
def gpuMemoryCheck (r : ResourceList) (c : Nat) : Nat × Option DeviceError :=
  match r.gpuMemory with
  | some _ => gpuMemoryRatioCheck r (c ||| GPUMemoryExist)
  | none => gpuMemoryRatioCheck r c

/-- Stage of ValidateGPURequest checking koordinator.sh/gpu-core
(utils.go lines 97-103). -/
def gpuCoreCheck (r : ResourceList) (c : Nat) : Nat × Option DeviceError :=
  match r.gpuCore with
  | some gpuCore =>
    if 100 < gpuCore ∧ Int.tmod gpuCore 100 ≠ 0 then
      (c, some (DeviceError.invalidQuantity ResourceGPUCore gpuCore))
    else
      gpuMemoryCheck r (c ||| GPUCoreExist)
  | none => gpuMemoryCheck r c

/-- ValidateGPURequest from utils.go lines 81-122.  The Go function returns
`(uint, error)`; on an early quantity failure the returned mask is the
partially accumulated one, exactly as in the source. -/
def ValidateGPURequest (podRequest : ResourceList) : Nat × Option DeviceError :=
  let gpuCombination : Nat := 0
  if podRequest.isEmptyRL then
    (gpuCombination, some DeviceError.emptyRequest)
  else
    let gpuCombination :=
      if podRequest.nvidiaGPU.isSome then gpuCombination ||| NvidiaGPUExist
      else gpuCombination
    match podRequest.koordGPU with
    | some koordGPU =>
      if 100 < koordGPU ∧ Int.tmod koordGPU 100 ≠ 0 then
        (gpuCombination, some (DeviceError.invalidQuantity ResourceGPU koordGPU))
      else
        gpuCoreCheck podRequest (gpuCombination ||| KoordGPUExist)
    | none => gpuCoreCheck podRequest gpuCombination

/-- validateCommonDeviceRequest from utils.go lines 59-76.  A missing map
entry reads as the zero Quantity, as Go map indexing does. -/
def validateCommonDeviceRequest (podRequest : ResourceList) (deviceType : DeviceType) :
    Option DeviceError :=
  if podRequest.isEmptyRL then
    some DeviceError.emptyRequest
  else
    match deviceType with
    | DeviceType.FPGA =>
      let commonDevice := podRequest.fpga.getD 0
      if 100 < commonDevice ∧ Int.tmod commonDevice 100 ≠ 0 then
        some (DeviceError.invalidQuantity ResourceFPGA commonDevice)
      else
        none
    | DeviceType.RDMA =>
      let commonDevice := podRequest.rdma.getD 0
      if 100 < commonDevice ∧ Int.tmod commonDevice 100 ≠ 0 then
        some (DeviceError.invalidQuantity ResourceRDMA commonDevice)
      else
        none
    | DeviceType.GPU => some DeviceError.unsupportedDeviceType

/-- Mask of the present recognized GPU resource names of a request, the
"one bit per present name" bitset the spec describes. -/
def gpuMaskOf (r : ResourceList) : Nat :=
  (if r.nvidiaGPU.isSome then NvidiaGPUExist else 0) |||
  (if r.koordGPU.isSome then KoordGPUExist else 0) |||
  (if r.gpuCore.isSome then GPUCoreExist else 0) |||
  (if r.gpuMemory.isSome then GPUMemoryExist else 0) |||
  (if r.gpuMemoryRatio.isSome then GPUMemoryRatioExist else 0)

/-- The whitelist of valid GPU combination masks from utils.go line 80. -/
def validGPUCombination (c : Nat) : Bool :=
  c == NvidiaGPUExist || c == KoordGPUExist ||
  c == (GPUCoreExist ||| GPUMemoryExist) ||
  c == (GPUCoreExist ||| GPUMemoryRatioExist)

/-- Per-name quantity check of utils.go: a ratio-typed value fails when it
exceeds 100 without being an exact multiple of 100. -/
def badQty (v : Int) : Bool :=
  decide (100 < v) && decide (Int.tmod v 100 ≠ 0)

/-- A ratio-typed value passes the per-name quantity check. -/
def quantityOK (v : Int) : Bool := !badQty v

/-- Recognizer for the invalid-quantity error kind. -/
def isInvalidQuantity : Option DeviceError → Bool
  | some (DeviceError.invalidQuantity _ _) => true
  | _ => false

/-- ConvertGPUResource from utils.go lines 153-182.  The Go function
returns a fresh corev1.ResourceList, or nil (here `none`) for an empty
request or an unhandled combination; a map read of an absent key yields
the zero Quantity, rendered with `Option.getD 0`. -/
def ConvertGPUResource (podRequest : ResourceList) (combination : Nat) :
    Option ResourceList :=
  if podRequest.isEmptyRL then
    none
  else if combination = (GPUCoreExist ||| GPUMemoryExist) then
    some { gpuCore := some (podRequest.gpuCore.getD 0),
           gpuMemory := some (podRequest.gpuMemory.getD 0) }
  else if combination = (GPUCoreExist ||| GPUMemoryRatioExist) then
    some { gpuCore := some (podRequest.gpuCore.getD 0),
           gpuMemoryRatio := some (podRequest.gpuMemoryRatio.getD 0) }
  else if combination = KoordGPUExist then
    some { gpuCore := some (podRequest.koordGPU.getD 0),
           gpuMemoryRatio := some (podRequest.koordGPU.getD 0) }
  else if combination = NvidiaGPUExist then
    some { gpuCore := some (podRequest.nvidiaGPU.getD 0 * 100),
           gpuMemoryRatio := some (podRequest.nvidiaGPU.getD 0 * 100) }
  else
    none

/-- Two's-complement wrap of a 64-bit value: Go multiplication of int64
operands keeps only the low 64 bits, reinterpreted as a signed value. -/
def wrap64 (x : Int) : Int :=
  (x + 2 ^ 63) % 2 ^ 64 - 2 ^ 63

/-- memRatioToBytes from utils.go lines 210-212:
`ratio.Value() * totalMemory.Value() / 100` in Go int64 arithmetic: the
product wraps at 64 bits and the division by 100 truncates toward zero
(its result is then always in range, so it needs no further wrap). -/
def memRatioToBytes (ratio totalMemory : Int) : Int :=
  Int.tdiv (wrap64 (ratio * totalMemory)) 100

/-- One binary-search step for the floor base-2 logarithm: if the
remaining value still holds 2 ^ k, shift it down by k and record k. -/
def natLog2Step (p : Nat × Nat) (k : Nat) : Nat × Nat :=
  if 2 ^ k ≤ p.1 then (p.1 / 2 ^ k, p.2 + k) else p

/-- Floor of the base-2 logarithm of a positive natural number by
binary search over the exponent, exact for every argument below 2 ^ 512
(far beyond every value the int64-derived fractions of this model can
reach); recursion-free so that the kernel evaluates it directly. -/
def natLog2 (n : Nat) : Nat :=
  (natLog2Step (natLog2Step (natLog2Step (natLog2Step (natLog2Step
    (natLog2Step (natLog2Step (natLog2Step (natLog2Step
      (n, 0) 256) 128) 64) 32) 16) 8) 4) 2) 1).2

/-- Whether the fraction a / b (with a, b positive) is below 2 ^ c,
decided in integer arithmetic. -/
def fracLtTwoPow (a b c : Int) : Bool :=
  if 0 ≤ c then decide (a < b * 2 ^ c.toNat)
  else decide (a * 2 ^ (-c).toNat < b)

/-- Floor of the base-2 logarithm of the positive fraction a / b: the
difference of the numerator's and denominator's logarithms overestimates
it by at most one and is corrected by a single comparison. -/
def fracFloorLog2 (a b : Int) : Int :=
  let c : Int := (natLog2 a.toNat : Int) - (natLog2 b.toNat : Int)
  if fracLtTwoPow a b c then c - 1 else c

/-- Round the fraction a / b (b positive) to the nearest integer with
ties to even, IEEE-754's tie-breaking rule, applied here to a scaled
significand; `/` and `%` are Euclidean, so n is the floor and the
remainder r is in [0, b). -/
def fracRoundHalfEven (a b : Int) : Int :=
  let n := a / b
  let r := a - n * b
  if 2 * r < b then n
  else if b < 2 * r then n + 1
  else if n % 2 = 0 then n else n + 1

/-- The IEEE-754 binary64 float nearest to the nonnegative fraction
a / b (round to nearest, ties to even), returned as an exact unreduced
fraction: scale by a power of two into the significand range from 2^52
to 2^53, round to the nearest integer significand with ties to even,
and scale back.  Exact over the normal finite range, which every value
of the embedded code inhabits. -/
def fracRound64 (a b : Int) : Int × Int :=
  if a = 0 then (0, 1)
  else
    let e : Int := fracFloorLog2 a b - 52
    if 0 ≤ e then
      (fracRoundHalfEven a (b * 2 ^ e.toNat) * 2 ^ e.toNat, 1)
    else
      (fracRoundHalfEven (a * 2 ^ (-e).toNat) b, 2 ^ (-e).toNat)

/-- The float64 value memBytesToRatio computes before its final integer
conversion, as an exact fraction: `float64(bytes) / float64(totalMemory)
* 100`, with the two int64-to-float64 conversions, the division and the
multiplication each correctly rounded to nearest-even, exactly as
binary64 evaluates them in the normal finite range (the constant 100 is
exactly representable and the quotient of the two rounded operands is
the exact value IEEE division rounds). -/
def gpuMemRatioFloatFrac (bytes totalMemory : Int) : Int × Int :=
  let f1 := fracRound64 bytes 1
  let f2 := fracRound64 totalMemory 1
  let q := fracRound64 (f1.1 * f2.2) (f1.2 * f2.1)
  fracRound64 (q.1 * 100) q.2

/-- memBytesToRatio from utils.go lines 214-216:
`int64(float64(bytes.Value()) / float64(totalMemory.Value()) * 100)`:
the float64 computation embedded exactly as binary64 arithmetic, then
Go's int64 conversion, which truncates the float value toward zero.  A
totalMemory of zero, whose Go quotient is non-finite with
implementation-defined conversion, is outside this model and outside
every claim about this function. -/
def memBytesToRatio (bytes totalMemory : Int) : Int :=
  Int.tdiv (gpuMemRatioFloatFrac bytes totalMemory).1
    (gpuMemRatioFloatFrac bytes totalMemory).2

/-- Per-node device totals keyed by minor, the `deviceResources` map of
the plugin.  Embedded as an association list whose head is the first
minor map iteration yields. -/
def deviceResources : Type := List (Nat × ResourceList)

/-- Go map indexing into a deviceResources value: an absent minor reads
as the nil ResourceList (every lookup in it yields zero). -/
def lookupMinor (l : List (Nat × ResourceList)) (minor : Nat) : ResourceList :=
  match l with
  | [] => {}
  | (k, v) :: rest => if k = minor then v else lookupMinor rest minor

/-- The `activeMinor` scan of fillGPUTotalMem (utils.go lines 244-248):
the first key the map iteration yields, defaulting to 0 on an empty map. -/
def activeMinorOf (l : List (Nat × ResourceList)) : Nat :=
  match l with
  | [] => 0
  | (i, _) :: _ => i

/-- The per-instance total GPU memory fillGPUTotalMem reads:
`nodeDeviceTotal[activeMinor][apiext.ResourceGPUMemory]`. -/
def nodeTotalMem (l : List (Nat × ResourceList)) : Int :=
  (lookupMinor l (activeMinorOf l)).gpuMemory.getD 0

/-- fillGPUTotalMem from utils.go lines 241-257.  The Go function mutates
podRequest in place; the embedding returns the updated map. -/
def fillGPUTotalMem (nodeDeviceTotal : List (Nat × ResourceList))
    (podRequest : ResourceList) : ResourceList :=
  match podRequest.gpuMemory with
  | some gpuMem =>
    { podRequest with
        gpuMemoryRatio := some (memBytesToRatio gpuMem (nodeTotalMem nodeDeviceTotal)) }
  | none =>
    let gpuMemRatio := podRequest.gpuMemoryRatio.getD 0
    { podRequest with
        gpuMemory := some (memRatioToBytes gpuMemRatio (nodeTotalMem nodeDeviceTotal)) }

/-- A container of a pod spec: its name and its resource request map
(`none` embeds a nil Requests map). -/
structure Container where
  name : String := ""
  requests : Option ResourceList := none
deriving DecidableEq

/-- Presence test of any recognized GPU resource name in a request map,
the inner loop of patchContainerGPUResource over
DeviceResourceNames[GPU]. -/
def hasAnyGPUResource (reqs : ResourceList) : Bool :=
  reqs.nvidiaGPU.isSome || reqs.koordGPU.isSome || reqs.gpuCore.isSome ||
  reqs.gpuMemory.isSome || reqs.gpuMemoryRatio.isSome

/-- Whether patchContainerGPUResource patches a container: its request map
is non-nil and mentions some recognized GPU resource name. -/
def containerNeedsPatch (c : Container) : Bool :=
  match c.requests with
  | none => false
  | some reqs => hasAnyGPUResource reqs

/-- The overwrite patchContainerGPUResource performs on the selected
container's request map: `reqs[v] = podRequest[v]` for gpu-core,
gpu-memory and gpu-memory-ratio; an absent podRequest entry writes the
zero Quantity, as Go map indexing yields. -/
def patchGPUResource (reqs podRequest : ResourceList) : ResourceList :=
  { reqs with
      gpuCore := some (podRequest.gpuCore.getD 0),
      gpuMemory := some (podRequest.gpuMemory.getD 0),
      gpuMemoryRatio := some (podRequest.gpuMemoryRatio.getD 0) }

/-- The container loop of patchContainerGPUResource (utils.go lines
220-238): skip containers with a nil request map, patch the first
container requesting a GPU resource name, then break. -/
def patchContainers (cs : List Container) (podRequest : ResourceList) :
    List Container :=
  match cs with
  | [] => []
  | c :: rest =>
    match c.requests with
    | none => c :: patchContainers rest podRequest
    | some reqs =>
      if hasAnyGPUResource reqs then
        { c with requests := some (patchGPUResource reqs podRequest) } :: rest
      else
        c :: patchContainers rest podRequest

/-- Object metadata of the cluster object model, restricted to the fields
the embedded code touches.  Maps are association lists; Go's nil map and
the empty map coincide here, which only the merge loops observe (both
behave identically for them). -/
structure ObjectMeta where
  name : String := ""
  nameSpace : String := ""
  uid : String := ""
  labels : List (String × String) := []
  annotations : List (String × String) := []
deriving DecidableEq

/-- Pod spec restricted to the fields the embedded code touches. -/
structure PodSpec where
  nodeName : String := ""
  schedulerName : String := ""
  containers : List Container := []
deriving DecidableEq

/-- Pod status restricted to the phase string ("" embeds the unset
phase; "Succeeded" and "Failed" are corev1.PodSucceeded/PodFailed). -/
structure PodStatus where
  phase : String := ""
deriving DecidableEq

/-- A corev1.Pod restricted to the fields the embedded code touches. -/
structure Pod where
  metadata : ObjectMeta := {}
  spec : PodSpec := {}
  status : PodStatus := {}
deriving DecidableEq

/-- patchContainerGPUResource from utils.go lines 218-239.  The Go
function mutates the pod in place; the embedding returns the updated pod. -/
def patchContainerGPUResource (pod : Pod) (podRequest : ResourceList) : Pod :=
  { pod with spec.containers := patchContainers pod.spec.containers podRequest }

/-- Map write `m[k] = v` on an association-list map: replaces the value
of an existing key, else appends the binding. -/
def setKV (m : List (String × String)) (k v : String) : List (String × String) :=
  match m with
  | [] => [(k, v)]
  | (k', v') :: rest => if k' = k then (k, v) :: rest else (k', v') :: setKV rest k v

/-- Map read `m[k]` on an association-list map, yielding Go's zero string
for an absent key. -/
def getKV (m : List (String × String)) (k : String) : String :=
  match m with
  | [] => ""
  | (k', v') :: rest => if k' = k then v' else getKV rest k

/-- The merge loop `for k, v := range src { dst[k] = v }`. -/
def setAll (dst src : List (String × String)) : List (String × String) :=
  src.foldl (fun m kv => setKV m kv.1 kv.2) dst

/-- SchedulingDomainPrefix from apis/extension. -/
def SchedulingDomainPrefix : String := "scheduling.koordinator.sh"

/-- AnnotationReservePod from reservation.go line 32. -/
def AnnotationReservePod : String := SchedulingDomainPrefix ++ "/reserve-pod"

/-- AnnotationReservationName from reservation.go line 34. -/
def AnnotationReservationName : String := SchedulingDomainPrefix ++ "/reservation-name"

/-- AnnotationReservationNode from reservation.go line 36. -/
def AnnotationReservationNode : String := SchedulingDomainPrefix ++ "/reservation-node"

/-- corev1.NamespaceDefault. -/
def NamespaceDefault : String := "default"

/-- corev1.DefaultSchedulerName. -/
def DefaultSchedulerName : String := "default-scheduler"

/-- schedulingv1alpha1.ReservationPhase values used by the embedded code. -/
inductive ReservationPhase where
  | pending
  | available
  | waiting
  | succeeded
  | failed
deriving DecidableEq

/-- One entry of a reservation's status conditions. -/
structure ReservationCondition where
  condType : String := ""
  status : String := ""
  reason : String := ""
deriving DecidableEq

/-- schedulingv1alpha1.ReservationConditionReady. -/
def ReservationConditionReady : String := "Ready"

/-- schedulingv1alpha1.ConditionStatusFalse. -/
def ConditionStatusFalse : String := "False"

/-- schedulingv1alpha1.ReasonReservationExpired. -/
def ReasonReservationExpired : String := "Expired"

/-- Reservation status restricted to the fields the embedded code touches. -/
structure ReservationStatus where
  nodeName : String := ""
  phase : ReservationPhase := ReservationPhase.pending
  conditions : List ReservationCondition := []
deriving DecidableEq

/-- A pod template inside a reservation spec. -/
structure PodTemplateSpec where
  metadata : ObjectMeta := {}
  spec : PodSpec := {}
deriving DecidableEq

/-- Reservation spec restricted to the template (the only field
NewReservePod reads). -/
structure ReservationSpec where
  template : Option PodTemplateSpec := none
deriving DecidableEq

/-- A schedulingv1alpha1.Reservation restricted to the fields the
embedded code touches. -/
structure Reservation where
  name : String := ""
  uid : String := ""
  labels : List (String × String) := []
  annotations : List (String × String) := []
  spec : ReservationSpec := {}
  status : ReservationStatus := {}
deriving DecidableEq

/-- GetReservationKey from reservation.go lines 116-118. -/
def GetReservationKey (r : Reservation) : String := r.uid

/-- GetReservationNodeName from reservation.go lines 171-173. -/
def GetReservationNodeName (r : Reservation) : String := r.status.nodeName

/-- IsReservationSucceeded from reservation.go lines 150-152 (the nil
receiver case has no counterpart: reservations are values here). -/
def IsReservationSucceeded (r : Reservation) : Bool :=
  r.status.phase == ReservationPhase.succeeded

/-- IsReservationFailed from reservation.go lines 154-156. -/
def IsReservationFailed (r : Reservation) : Bool :=
  r.status.phase == ReservationPhase.failed

/-- The condition scan of IsReservationExpired (reservation.go lines
162-167): the first Ready condition decides. -/
def expiredFromConditions : List ReservationCondition → Bool
  | [] => false
  | c :: rest =>
    if c.condType == ReservationConditionReady then
      c.status == ConditionStatusFalse && c.reason == ReasonReservationExpired
    else
      expiredFromConditions rest

/-- IsReservationExpired from reservation.go lines 158-169. -/
def IsReservationExpired (r : Reservation) : Bool :=
  if r.status.phase != ReservationPhase.failed then false
  else expiredFromConditions r.status.conditions

/-- GetReservationSchedulerName from reservation.go lines 132-137. -/
def GetReservationSchedulerName (r : Reservation) : String :=
  match r.spec.template with
  | none => DefaultSchedulerName
  | some t =>
    if t.spec.schedulerName.length ≤ 0 then DefaultSchedulerName
    else t.spec.schedulerName

/-- NewReservePod from reservation.go lines 41-94, step for step: copy
the template's metadata and spec when present, overwrite name and uid,
default the namespace, overlay the reservation's labels and annotations,
stamp the reserve-pod and reservation-name annotations, move a spec
nodeName into the reservation-node annotation, adopt the status
nodeName, derive the phase, and set the scheduler name. -/
def NewReservePod (r : Reservation) : Pod :=
  let reservePod : Pod :=
    match r.spec.template with
    | some t => { metadata := t.metadata, spec := t.spec }
    | none => {}
  let reservePod :=
    { reservePod with metadata.name := GetReservationKey r, metadata.uid := r.uid }
  let reservePod :=
    if reservePod.metadata.nameSpace.length ≤ 0 then
      { reservePod with metadata.nameSpace := NamespaceDefault }
    else reservePod
  let reservePod :=
    { reservePod with metadata.labels := setAll reservePod.metadata.labels r.labels }
  let reservePod :=
    { reservePod with
        metadata.annotations := setAll reservePod.metadata.annotations r.annotations }
  let reservePod :=
    { reservePod with
        metadata.annotations := setKV reservePod.metadata.annotations AnnotationReservePod "true" }
  let reservePod :=
    { reservePod with
        metadata.annotations :=
          setKV reservePod.metadata.annotations AnnotationReservationName r.name }
  let reservePod :=
    if reservePod.spec.nodeName.length > 0 then
      { reservePod with
          metadata.annotations :=
            setKV reservePod.metadata.annotations AnnotationReservationNode
              reservePod.spec.nodeName,
          spec.nodeName := "" }
    else reservePod
  let reservePod :=
    if (GetReservationNodeName r).length > 0 then
      { reservePod with spec.nodeName := GetReservationNodeName r }
    else reservePod
  let reservePod :=
    if IsReservationSucceeded r then
      { reservePod with status.phase := "Succeeded" }
    else if IsReservationExpired r || IsReservationFailed r then
      { reservePod with status.phase := "Failed" }
    else reservePod
  { reservePod with spec.schedulerName := GetReservationSchedulerName r }

/-- IsReservePod from reservation.go lines 112-114 (pods are values here,
so the nil-pod and nil-annotations guards reduce to the map read, which
yields "" on an empty map exactly as Go does on a nil one). -/
def IsReservePod (pod : Pod) : Bool :=
  getKV pod.metadata.annotations AnnotationReservePod == "true"

/-- GetReservationNameFromReservePod from reservation.go lines 128-130. -/
def GetReservationNameFromReservePod (pod : Pod) : String :=
  getKV pod.metadata.annotations AnnotationReservationName

/-- The MemInfo record, field for field as the `want` literals of
Test_readMemInfo (src/unnamed/part_000) spell it. -/
structure MemInfo where
  MemTotal : Nat := 0
  MemFree : Nat := 0
  MemAvailable : Nat := 0
  Buffers : Nat := 0
  Cached : Nat := 0
  SwapCached : Nat := 0
  Active : Nat := 0
  Inactive : Nat := 0
  ActiveAnon : Nat := 0
  InactiveAnon : Nat := 0
  ActiveFile : Nat := 0
  InactiveFile : Nat := 0
  Unevictable : Nat := 0
  Mlocked : Nat := 0
  SwapTotal : Nat := 0
  SwapFree : Nat := 0
  Dirty : Nat := 0
  Writeback : Nat := 0
  AnonPages : Nat := 0
  Mapped : Nat := 0
  Shmem : Nat := 0
  Slab : Nat := 0
  SReclaimable : Nat := 0
  SUnreclaim : Nat := 0
  KernelStack : Nat := 0
  PageTables : Nat := 0
  NFS_Unstable : Nat := 0
  Bounce : Nat := 0
  WritebackTmp : Nat := 0
  CommitLimit : Nat := 0
  Committed_AS : Nat := 0
  VmallocTotal : Nat := 0
  VmallocUsed : Nat := 0
  VmallocChunk : Nat := 0
  HardwareCorrupted : Nat := 0
  AnonHugePages : Nat := 0
  HugePages_Total : Nat := 0
  HugePages_Free : Nat := 0
  HugePages_Rsvd : Nat := 0
  HugePages_Surp : Nat := 0
  Hugepagesize : Nat := 0
  DirectMap4k : Nat := 0
  DirectMap2M : Nat := 0
  DirectMap1G : Nat := 0
deriving DecidableEq

/-- Accumulate one digit run into a natural number; a non-digit character
fails the parse of the whole token. -/
def digitsToNat : List Char → Nat → Option Nat
  | [], acc => some acc
  | c :: cs, acc =>
    if c.isDigit then digitsToNat cs (acc * 10 + (c.toNat - 48))
    else none

/-- Unsigned decimal parse of a value token, strconv.ParseUint style: the
empty token and any token holding a non-digit fail. -/
def parseUintToken (s : String) : Option Nat :=
  if s.isEmpty then none else digitsToNat s.data 0

/-- Modelled from the spec: readMemInfo is absent from src (only its test
is visible), so one parsed line of the `key: value unit` format of §6 is
embedded post-tokenization as the pair of its key and its value token. -/
def MemInfoLine : Type := String × String

/-- Modelled from the spec: the per-line field assignment of readMemInfo,
as §6's fixed-field record contract refined by Test_readMemInfo
(src/unnamed/part_000): a line whose value token is not numeric is
skipped, leaving the field at zero (the test expects Cached = 0 and no
error for the `invalidField` file), and unknown keys are ignored. -/
def applyMemInfoLine (m : MemInfo) (line : String × String) : MemInfo :=
  match parseUintToken line.2 with
  | none => m
  | some v =>
    if line.1 = "MemTotal" then { m with MemTotal := v }
    else if line.1 = "MemFree" then { m with MemFree := v }
    else if line.1 = "MemAvailable" then { m with MemAvailable := v }
    else if line.1 = "Buffers" then { m with Buffers := v }
    else if line.1 = "Cached" then { m with Cached := v }
    else if line.1 = "SwapCached" then { m with SwapCached := v }
    else if line.1 = "Active" then { m with Active := v }
    else if line.1 = "Inactive" then { m with Inactive := v }
    else if line.1 = "Active(anon)" then { m with ActiveAnon := v }
    else if line.1 = "Inactive(anon)" then { m with InactiveAnon := v }
    else if line.1 = "Active(file)" then { m with ActiveFile := v }
    else if line.1 = "Inactive(file)" then { m with InactiveFile := v }
    else if line.1 = "Unevictable" then { m with Unevictable := v }
    else if line.1 = "Mlocked" then { m with Mlocked := v }
    else if line.1 = "SwapTotal" then { m with SwapTotal := v }
    else if line.1 = "SwapFree" then { m with SwapFree := v }
    else if line.1 = "Dirty" then { m with Dirty := v }
    else if line.1 = "Writeback" then { m with Writeback := v }
    else if line.1 = "AnonPages" then { m with AnonPages := v }
    else if line.1 = "Mapped" then { m with Mapped := v }
    else if line.1 = "Shmem" then { m with Shmem := v }
    else if line.1 = "Slab" then { m with Slab := v }
    else if line.1 = "SReclaimable" then { m with SReclaimable := v }
    else if line.1 = "SUnreclaim" then { m with SUnreclaim := v }
    else if line.1 = "KernelStack" then { m with KernelStack := v }
    else if line.1 = "PageTables" then { m with PageTables := v }
    else if line.1 = "NFS_Unstable" then { m with NFS_Unstable := v }
    else if line.1 = "Bounce" then { m with Bounce := v }
    else if line.1 = "WritebackTmp" then { m with WritebackTmp := v }
    else if line.1 = "CommitLimit" then { m with CommitLimit := v }
    else if line.1 = "Committed_AS" then { m with Committed_AS := v }
    else if line.1 = "VmallocTotal" then { m with VmallocTotal := v }
    else if line.1 = "VmallocUsed" then { m with VmallocUsed := v }
    else if line.1 = "VmallocChunk" then { m with VmallocChunk := v }
    else if line.1 = "HardwareCorrupted" then { m with HardwareCorrupted := v }
    else if line.1 = "AnonHugePages" then { m with AnonHugePages := v }
    else if line.1 = "HugePages_Total" then { m with HugePages_Total := v }
    else if line.1 = "HugePages_Free" then { m with HugePages_Free := v }
    else if line.1 = "HugePages_Rsvd" then { m with HugePages_Rsvd := v }
    else if line.1 = "HugePages_Surp" then { m with HugePages_Surp := v }
    else if line.1 = "Hugepagesize" then { m with Hugepagesize := v }
    else if line.1 = "DirectMap4k" then { m with DirectMap4k := v }
    else if line.1 = "DirectMap2M" then { m with DirectMap2M := v }
    else if line.1 = "DirectMap1G" then { m with DirectMap1G := v }
    else m

/-- Modelled from the spec: readMemInfo, absent from src, as §6's parser
contract refined by Test_readMemInfo (src/unnamed/part_000).  The input
is `none` for an absent or unreadable file (the only erroring case the
test exhibits: the nonexistent path wants an error, the file with the
non-numeric `Cached` field wants no error), otherwise the tokenized
lines, folded into the fixed-field record starting from all zeroes. -/
def readMemInfo (file : Option (List (String × String))) : Option MemInfo :=
  match file with
  | none => none
  | some lines => some (lines.foldl applyMemInfoLine {})

/-- The well-formed memory statistics file of Test_readMemInfo
(src/unnamed/part_000 lines 32-47), tokenized. -/
def memInfoLinesValid : List (String × String) :=
  [("MemTotal", "263432804"), ("MemFree", "254391744"), ("MemAvailable", "256703236"),
   ("Buffers", "958096"), ("Cached", "3763224"), ("SwapCached", "0"),
   ("Active", "2786012"), ("Inactive", "2223752"), ("Active(anon)", "289488"),
   ("Inactive(anon)", "1300"), ("Active(file)", "2496524"), ("Inactive(file)", "2222452"),
   ("Unevictable", "0"), ("Mlocked", "0"), ("SwapTotal", "0"),
   ("SwapFree", "0"), ("Dirty", "624"), ("Writeback", "0"),
   ("AnonPages", "281748"), ("Mapped", "495936"), ("Shmem", "2340"),
   ("Slab", "1097040"), ("SReclaimable", "445164"), ("SUnreclaim", "651876"),
   ("KernelStack", "20944"), ("PageTables", "7896"), ("NFS_Unstable", "0"),
   ("Bounce", "0"), ("WritebackTmp", "0"), ("CommitLimit", "131716400"),
   ("Committed_AS", "3825364"), ("VmallocTotal", "34359738367"), ("VmallocUsed", "0"),
   ("VmallocChunk", "0"), ("HardwareCorrupted", "0"), ("AnonHugePages", "38912"),
   ("ShmemHugePages", "0"), ("ShmemPmdMapped", "0"), ("CmaTotal", "0"),
   ("CmaFree", "0"), ("HugePages_Total", "0"), ("HugePages_Free", "0"),
   ("HugePages_Rsvd", "0"), ("HugePages_Surp", "0"), ("Hugepagesize", "2048"),
   ("DirectMap4k", "414760"), ("DirectMap2M", "8876032"), ("DirectMap1G", "261095424")]

/-- The malformed memory statistics file of Test_readMemInfo
(src/unnamed/part_000 lines 51-66): identical to the well-formed one
except that the required field Cached carries the non-numeric token
`invalidField`. -/
def memInfoLinesInvalid : List (String × String) :=
  [("MemTotal", "263432804"), ("MemFree", "254391744"), ("MemAvailable", "256703236"),
   ("Buffers", "958096"), ("Cached", "invalidField"), ("SwapCached", "0"),
   ("Active", "2786012"), ("Inactive", "2223752"), ("Active(anon)", "289488"),
   ("Inactive(anon)", "1300"), ("Active(file)", "2496524"), ("Inactive(file)", "2222452"),
   ("Unevictable", "0"), ("Mlocked", "0"), ("SwapTotal", "0"),
   ("SwapFree", "0"), ("Dirty", "624"), ("Writeback", "0"),
   ("AnonPages", "281748"), ("Mapped", "495936"), ("Shmem", "2340"),
   ("Slab", "1097040"), ("SReclaimable", "445164"), ("SUnreclaim", "651876"),
   ("KernelStack", "20944"), ("PageTables", "7896"), ("NFS_Unstable", "0"),
   ("Bounce", "0"), ("WritebackTmp", "0"), ("CommitLimit", "131716400"),
   ("Committed_AS", "3825364"), ("VmallocTotal", "34359738367"), ("VmallocUsed", "0"),
   ("VmallocChunk", "0"), ("HardwareCorrupted", "0"), ("AnonHugePages", "38912"),
   ("ShmemHugePages", "0"), ("ShmemPmdMapped", "0"), ("CmaTotal", "0"),
   ("CmaFree", "0"), ("HugePages_Total", "0"), ("HugePages_Free", "0"),
   ("HugePages_Rsvd", "0"), ("HugePages_Surp", "0"), ("Hugepagesize", "2048"),
   ("DirectMap4k", "414760"), ("DirectMap2M", "8876032"), ("DirectMap1G", "261095424")]

/-- The record Test_readMemInfo expects for the well-formed file. -/
def memInfoExpectedValid : MemInfo :=
  { MemTotal := 263432804, MemFree := 254391744, MemAvailable := 256703236,
    Buffers := 958096, Cached := 3763224, SwapCached := 0,
    Active := 2786012, Inactive := 2223752, ActiveAnon := 289488,
    InactiveAnon := 1300, ActiveFile := 2496524, InactiveFile := 2222452,
    Unevictable := 0, Mlocked := 0, SwapTotal := 0,
    SwapFree := 0, Dirty := 624, Writeback := 0,
    AnonPages := 281748, Mapped := 495936, Shmem := 2340,
    Slab := 1097040, SReclaimable := 445164, SUnreclaim := 651876,
    KernelStack := 20944, PageTables := 7896, NFS_Unstable := 0,
    Bounce := 0, WritebackTmp := 0, CommitLimit := 131716400,
    Committed_AS := 3825364, VmallocTotal := 34359738367, VmallocUsed := 0,
    VmallocChunk := 0, HardwareCorrupted := 0, AnonHugePages := 38912,
    HugePages_Total := 0, HugePages_Free := 0, HugePages_Rsvd := 0,
    HugePages_Surp := 0, Hugepagesize := 2048, DirectMap4k := 414760,
    DirectMap2M := 8876032, DirectMap1G := 261095424 }

/-- The record Test_readMemInfo expects for the malformed file: the same
values with Cached at zero and no error. -/
def memInfoExpectedInvalid : MemInfo :=
  { memInfoExpectedValid with Cached := 0 }

/-! Helper lemmas about the validation stages. -/

theorem badQty_eq_true {v : Int} :
    badQty v = true ↔ (100 < v ∧ Int.tmod v 100 ≠ 0) := by
  simp [badQty]

theorem quantityOK_not_bad {v : Int} (h : quantityOK v = true) :
    ¬(100 < v ∧ Int.tmod v 100 ≠ 0) := by
  simp [quantityOK, badQty] at h
  intro hv
  rcases h with h | h
  · exact absurd hv.1 (not_lt.mpr h)
  · exact hv.2 h

theorem combinationCheck_eq (c : Nat) :
    combinationCheck c =
      (c, if validGPUCombination c then none else some DeviceError.invalidCombination) := by
  unfold combinationCheck validGPUCombination
  by_cases h : c = NvidiaGPUExist ∨ c = KoordGPUExist ∨
      c = (GPUCoreExist ||| GPUMemoryExist) ∨ c = (GPUCoreExist ||| GPUMemoryRatioExist)
  · rw [if_pos h]
    rcases h with h | h | h | h <;> simp [h]
  · rw [if_neg h]
    push_neg at h
    simp [h.1, h.2.1, h.2.2.1, h.2.2.2]

theorem gpuMemoryRatioCheck_eq (r : ResourceList) (c : Nat)
    (h : r.gpuMemoryRatio.all quantityOK = true) :
    gpuMemoryRatioCheck r c =
      combinationCheck (c ||| (if r.gpuMemoryRatio.isSome then GPUMemoryRatioExist else 0)) := by
  unfold gpuMemoryRatioCheck
  cases hm : r.gpuMemoryRatio with
  | none => simp
  | some v =>
    rw [hm] at h
    simp only [Option.all_some] at h
    simp [quantityOK_not_bad h]

theorem gpuMemoryCheck_eq (r : ResourceList) (c : Nat)
    (h : r.gpuMemoryRatio.all quantityOK = true) :
    gpuMemoryCheck r c =
      combinationCheck ((c ||| (if r.gpuMemory.isSome then GPUMemoryExist else 0)) |||
        (if r.gpuMemoryRatio.isSome then GPUMemoryRatioExist else 0)) := by
  unfold gpuMemoryCheck
  cases hm : r.gpuMemory with
  | none => simp [gpuMemoryRatioCheck_eq r c h]
  | some v => simp [gpuMemoryRatioCheck_eq r _ h]

theorem gpuCoreCheck_eq (r : ResourceList) (c : Nat)
    (hc : r.gpuCore.all quantityOK = true)
    (hr : r.gpuMemoryRatio.all quantityOK = true) :
    gpuCoreCheck r c =
      combinationCheck (((c ||| (if r.gpuCore.isSome then GPUCoreExist else 0)) |||
        (if r.gpuMemory.isSome then GPUMemoryExist else 0)) |||
        (if r.gpuMemoryRatio.isSome then GPUMemoryRatioExist else 0)) := by
  unfold gpuCoreCheck
  cases hm : r.gpuCore with
  | none => simp [gpuMemoryCheck_eq r c hr]
  | some v =>
    rw [hm] at hc
    simp only [Option.all_some] at hc
    simp [quantityOK_not_bad hc, gpuMemoryCheck_eq r _ hr]

theorem validateGPURequest_eq (r : ResourceList)
    (hne : r.isEmptyRL = false)
    (hk : r.koordGPU.all quantityOK = true)
    (hc : r.gpuCore.all quantityOK = true)
    (hr : r.gpuMemoryRatio.all quantityOK = true) :
    ValidateGPURequest r = combinationCheck (gpuMaskOf r) := by
  unfold ValidateGPURequest gpuMaskOf
  cases hm : r.koordGPU with
  | none => simp [hne, hm, gpuCoreCheck_eq r _ hc hr]
  | some v =>
    rw [hm] at hk
    simp only [Option.all_some] at hk
    simp [hne, hm, quantityOK_not_bad hk, gpuCoreCheck_eq r _ hc hr]

/-- C1 (amended): for every non-empty GPU request map whose present
ratio-typed values (normalized whole-device, core-share, memory-ratio)
all pass the per-name quantity check, ValidateGPURequest returns the
mask with one bit per present recognized GPU resource name, and returns
no error exactly when that mask is one of the four whitelisted
combinations, the invalid-combination error for every other bit
pattern.  (The quantity proviso is forced: a failing per-name quantity
check makes the function return an invalid-quantity error and a
partially accumulated mask even when the present-name bit pattern is
whitelisted.) -/
theorem validateGPURequest_whitelist (r : ResourceList)
    (hne : r.isEmptyRL = false)
    (hk : r.koordGPU.all quantityOK = true)
    (hc : r.gpuCore.all quantityOK = true)
    (hr : r.gpuMemoryRatio.all quantityOK = true) :
    ValidateGPURequest r =
      (gpuMaskOf r,
        if validGPUCombination (gpuMaskOf r) then none
        else some DeviceError.invalidCombination) := by
  rw [validateGPURequest_eq r hne hk hc hr, combinationCheck_eq]

/-- Witness for C1: the request with gpu-core 50 and gpu-memory present
yields the whitelisted mask 4 ||| 8 and no error. -/
theorem validateGPURequest_whitelist_witness :
    ValidateGPURequest { gpuCore := some 50, gpuMemory := some 1073741824 } =
      (GPUCoreExist ||| GPUMemoryExist, none) := by
  have h := validateGPURequest_whitelist
    { gpuCore := some 50, gpuMemory := some 1073741824 }
    (by decide) (by decide) (by decide) (by decide)
  rw [h]
  decide

/-- Counterexample for C1 as stated: the request map with only
koordinator.sh/gpu at 150 has present-name bit pattern KoordGPUExist,
which is whitelisted, yet ValidateGPURequest returns an invalid-quantity
error (and the partially accumulated mask 0) instead of the mask with no
error. -/
theorem validateGPURequest_whitelisted_mask_with_error :
    gpuMaskOf { koordGPU := some 150 } = KoordGPUExist ∧
    validGPUCombination KoordGPUExist = true ∧
    ValidateGPURequest { koordGPU := some 150 } =
      (0, some (DeviceError.invalidQuantity ResourceGPU 150)) := by
  decide

/-! Helper lemmas tracking the invalid-quantity error kind through the
validation stages. -/

theorem isInvalidQuantity_combinationCheck (c : Nat) :
    isInvalidQuantity (combinationCheck c).2 = false := by
  unfold combinationCheck
  split <;> rfl

theorem isInvalidQuantity_gpuMemoryRatioCheck (r : ResourceList) (c : Nat) :
    isInvalidQuantity (gpuMemoryRatioCheck r c).2 = r.gpuMemoryRatio.any badQty := by
  unfold gpuMemoryRatioCheck
  cases hm : r.gpuMemoryRatio with
  | none => simp [isInvalidQuantity_combinationCheck]
  | some v =>
    by_cases hb : 100 < v ∧ Int.tmod v 100 ≠ 0
    · simp [hb, isInvalidQuantity, badQty_eq_true.mpr hb]
    · have : badQty v = false := by
        cases h : badQty v
        · rfl
        · exact absurd (badQty_eq_true.mp h) hb
      simp [hb, isInvalidQuantity_combinationCheck, this]

theorem isInvalidQuantity_gpuMemoryCheck (r : ResourceList) (c : Nat) :
    isInvalidQuantity (gpuMemoryCheck r c).2 = r.gpuMemoryRatio.any badQty := by
  unfold gpuMemoryCheck
  cases hm : r.gpuMemory <;>
    simp [isInvalidQuantity_gpuMemoryRatioCheck]

theorem isInvalidQuantity_gpuCoreCheck (r : ResourceList) (c : Nat) :
    isInvalidQuantity (gpuCoreCheck r c).2 =
      (r.gpuCore.any badQty || r.gpuMemoryRatio.any badQty) := by
  unfold gpuCoreCheck
  cases hm : r.gpuCore with
  | none => simp [isInvalidQuantity_gpuMemoryCheck]
  | some v =>
    by_cases hb : 100 < v ∧ Int.tmod v 100 ≠ 0
    · simp [hb, isInvalidQuantity, badQty_eq_true.mpr hb]
    · have : badQty v = false := by
        cases h : badQty v
        · rfl
        · exact absurd (badQty_eq_true.mp h) hb
      simp [hb, isInvalidQuantity_gpuMemoryCheck, this]

/-- C2: for every non-empty request map, the validators return an
invalid-quantity error exactly when some requested ratio-typed value
fails the per-name check 100 < v and v tmod 100 not 0: for GPU the three
ratio-typed names (normalized whole-device, core-share, memory-ratio)
through ValidateGPURequest, and for RDMA and FPGA the single name each
through validateCommonDeviceRequest (whose absent entry reads as the
zero Quantity); in particular values at most 100 and exact multiples of
100 pass the per-name quantity check. -/
theorem validate_invalidQuantity_iff (r : ResourceList)
    (hne : r.isEmptyRL = false) :
    (isInvalidQuantity (ValidateGPURequest r).2 =
      (r.koordGPU.any badQty || r.gpuCore.any badQty || r.gpuMemoryRatio.any badQty)) ∧
    (isInvalidQuantity (validateCommonDeviceRequest r DeviceType.RDMA) =
      badQty (r.rdma.getD 0)) ∧
    (isInvalidQuantity (validateCommonDeviceRequest r DeviceType.FPGA) =
      badQty (r.fpga.getD 0)) := by
  refine ⟨?_, ?_, ?_⟩
  · unfold ValidateGPURequest
    cases hm : r.koordGPU with
    | none => simp [hne, isInvalidQuantity_gpuCoreCheck]
    | some v =>
      by_cases hb : 100 < v ∧ Int.tmod v 100 ≠ 0
      · simp [hne, hb, isInvalidQuantity, badQty_eq_true.mpr hb]
      · have : badQty v = false := by
          cases h : badQty v
          · rfl
          · exact absurd (badQty_eq_true.mp h) hb
        simp [hne, hb, isInvalidQuantity_gpuCoreCheck, this]
  · unfold validateCommonDeviceRequest
    by_cases hb : 100 < r.rdma.getD 0 ∧ Int.tmod (r.rdma.getD 0) 100 ≠ 0
    · simp [hne, hb, isInvalidQuantity, badQty_eq_true.mpr hb]
    · have : badQty (r.rdma.getD 0) = false := by
        cases h : badQty (r.rdma.getD 0)
        · rfl
        · exact absurd (badQty_eq_true.mp h) hb
      simp [hne, hb, isInvalidQuantity, this]
  · unfold validateCommonDeviceRequest
    by_cases hb : 100 < r.fpga.getD 0 ∧ Int.tmod (r.fpga.getD 0) 100 ≠ 0
    · simp [hne, hb, isInvalidQuantity, badQty_eq_true.mpr hb]
    · have : badQty (r.fpga.getD 0) = false := by
        cases h : badQty (r.fpga.getD 0)
        · rfl
        · exact absurd (badQty_eq_true.mp h) hb
      simp [hne, hb, isInvalidQuantity, this]

/-- Witness for C2: on the request with gpu-core 150 (over 100 and not a
multiple of 100), rdma 250 (likewise failing) and fpga 300 (an exact
multiple of 100, passing), the GPU and RDMA validators report an
invalid-quantity error and the FPGA validator does not. -/
theorem validate_invalidQuantity_iff_witness :
    isInvalidQuantity
      (ValidateGPURequest { gpuCore := some 150, rdma := some 250, fpga := some 300 }).2
        = true ∧
    isInvalidQuantity
      (validateCommonDeviceRequest
        { gpuCore := some 150, rdma := some 250, fpga := some 300 } DeviceType.RDMA)
        = true ∧
    isInvalidQuantity
      (validateCommonDeviceRequest
        { gpuCore := some 150, rdma := some 250, fpga := some 300 } DeviceType.FPGA)
        = false := by
  have h := validate_invalidQuantity_iff
    { gpuCore := some 150, rdma := some 250, fpga := some 300 } (by decide)
  refine ⟨?_, ?_, ?_⟩
  · rw [h.1]; decide
  · rw [h.2.1]; decide
  · rw [h.2.2]; decide

/-- C3: for every validated request in which a whole-device GPU name is
present alone, ConvertGPUResource returns the canonical request whose
core-share and memory-ratio both equal 100 times the requested device
count: for the native name (nvidia.com/gpu, counting whole devices) a
count n maps to core-share = memory-ratio = n * 100, and for the
normalized name (koordinator.sh/gpu, whose value already carries 100
units per device) a k-device value 100 * k passes through as core-share
= memory-ratio = 100 * k. -/
theorem convertGPUResource_whole_device (r : ResourceList) (n k : Int) :
    (r.nvidiaGPU = some n →
      ConvertGPUResource r NvidiaGPUExist =
        some { gpuCore := some (n * 100), gpuMemoryRatio := some (n * 100) }) ∧
    (r.koordGPU = some (100 * k) →
      ConvertGPUResource r KoordGPUExist =
        some { gpuCore := some (100 * k), gpuMemoryRatio := some (100 * k) }) := by
  constructor
  · intro h
    have hne : r.isEmptyRL = false := by
      simp [ResourceList.isEmptyRL, h]
    simp [ConvertGPUResource, hne, h,
      NvidiaGPUExist, KoordGPUExist, GPUCoreExist, GPUMemoryExist, GPUMemoryRatioExist]
  · intro h
    have hne : r.isEmptyRL = false := by
      simp [ResourceList.isEmptyRL, h]
    simp [ConvertGPUResource, hne, h,
      NvidiaGPUExist, KoordGPUExist, GPUCoreExist, GPUMemoryExist, GPUMemoryRatioExist]

/-- Witness for C3: a request for 2 native whole devices converts to
core-share = memory-ratio = 200, and a normalized request of 300 (3
whole devices) passes through unchanged. -/
theorem convertGPUResource_whole_device_witness :
    ConvertGPUResource { nvidiaGPU := some 2 } NvidiaGPUExist =
      some { gpuCore := some (2 * 100), gpuMemoryRatio := some (2 * 100) } ∧
    ConvertGPUResource { koordGPU := some 300 } KoordGPUExist =
      some { gpuCore := some (100 * 3), gpuMemoryRatio := some (100 * 3) } :=
  ⟨(convertGPUResource_whole_device { nvidiaGPU := some 2 } 2 3).1 rfl,
   (convertGPUResource_whole_device { koordGPU := some 300 } 2 3).2 (by decide)⟩

/-- C4: for every request whose mask is core-share + memory-bytes,
ConvertGPUResource keeps the input core-share and memory-bytes values,
and fillGPUTotalMem then computes the memory-ratio from the memory-bytes
value via memBytesToRatio against the node's per-instance total memory
(the gpu-memory total of the active minor of the node device cache). -/
theorem convert_core_memory_fills_ratio (r : ResourceList) (core mem : Int)
    (total : List (Nat × ResourceList))
    (hc : r.gpuCore = some core) (hm : r.gpuMemory = some mem) :
    (ConvertGPUResource r (GPUCoreExist ||| GPUMemoryExist)).map
        (fillGPUTotalMem total) =
      some { gpuCore := some core, gpuMemory := some mem,
             gpuMemoryRatio := some (memBytesToRatio mem (nodeTotalMem total)) } := by
  have hne : r.isEmptyRL = false := by
    simp [ResourceList.isEmptyRL, hc]
  simp [ConvertGPUResource, hne, hc, hm, fillGPUTotalMem,
    GPUCoreExist, GPUMemoryExist]

/-- Witness for C4: core-share 50 with 512 memory bytes on a node whose
minor 0 totals 1024 memory bytes converts to core-share 50 and
memory-ratio 50. -/
theorem convert_core_memory_fills_ratio_witness :
    (ConvertGPUResource { gpuCore := some 50, gpuMemory := some 512 }
        (GPUCoreExist ||| GPUMemoryExist)).map
        (fillGPUTotalMem [(0, { gpuMemory := some 1024 })]) =
      some { gpuCore := some 50, gpuMemory := some 512,
             gpuMemoryRatio := some (memBytesToRatio 512
               (nodeTotalMem [(0, { gpuMemory := some 1024 })])) } :=
  convert_core_memory_fills_ratio { gpuCore := some 50, gpuMemory := some 512 }
    50 512 [(0, { gpuMemory := some 1024 })] rfl rfl

/-! Helper lemmas for the binary64 model: correctness of the binary
logarithm search, the scaling bracket of fracFloorLog2, exactness of the
rounding on integer-valued fractions, and sign and size invariants. -/

theorem natLog2Step_spec (n : Nat) (p : Nat × Nat) (k : Nat)
    (h1 : p.1 = n / 2 ^ p.2) (h2 : 1 ≤ p.1) (h3 : p.1 < 2 ^ (2 * k)) :
    (natLog2Step p k).1 = n / 2 ^ (natLog2Step p k).2 ∧
    1 ≤ (natLog2Step p k).1 ∧ (natLog2Step p k).1 < 2 ^ k := by
  unfold natLog2Step
  split
  · rename_i hle
    refine ⟨?_, ?_, ?_⟩
    · simp only
      rw [h1, Nat.div_div_eq_div_mul, ← pow_add]
    · exact (Nat.one_le_div_iff (by positivity)).mpr hle
    · simp only
      rw [Nat.div_lt_iff_lt_mul (by positivity)]
      calc p.1 < 2 ^ (2 * k) := h3
        _ = 2 ^ k * 2 ^ k := by rw [← pow_add]; ring_nf
  · rename_i hlt
    push_neg at hlt
    exact ⟨h1, h2, hlt⟩

theorem natLog2_bracket (n : Nat) (h1 : 1 ≤ n) (h2 : n < 2 ^ 512) :
    2 ^ natLog2 n ≤ n ∧ n < 2 ^ (natLog2 n + 1) := by
  have s1 := natLog2Step_spec n (n, 0) 256 (by simp) h1 (by simpa using h2)
  have s2 := natLog2Step_spec n _ 128 s1.1 s1.2.1 s1.2.2
  have s3 := natLog2Step_spec n _ 64 s2.1 s2.2.1 s2.2.2
  have s4 := natLog2Step_spec n _ 32 s3.1 s3.2.1 s3.2.2
  have s5 := natLog2Step_spec n _ 16 s4.1 s4.2.1 s4.2.2
  have s6 := natLog2Step_spec n _ 8 s5.1 s5.2.1 s5.2.2
  have s7 := natLog2Step_spec n _ 4 s6.1 s6.2.1 s6.2.2
  have s8 := natLog2Step_spec n _ 2 s7.1 s7.2.1 s7.2.2
  have s9 := natLog2Step_spec n _ 1 s8.1 s8.2.1 s8.2.2
  unfold natLog2
  obtain ⟨hdiv, hlo, hhi⟩ := s9
  constructor
  · exact (Nat.one_le_div_iff (by positivity)).mp (hdiv ▸ hlo)
  · have := (Nat.div_lt_iff_lt_mul (show 0 < 2 ^ _ by positivity)).mp (hdiv ▸ hhi)
    calc n < 2 * 2 ^ _ := this
      _ = 2 ^ (_ + 1) := by rw [pow_succ]; ring

theorem fracLtTwoPow_iff (a b c : Int) (hb : 0 < b) :
    fracLtTwoPow a b c = true ↔ (a : ℚ) / (b : ℚ) < (2:ℚ) ^ c := by
  have hbq : (0:ℚ) < (b:ℚ) := by exact_mod_cast hb
  unfold fracLtTwoPow
  split
  · rename_i hc
    rw [decide_eq_true_eq]
    have hzc : (2:ℚ) ^ c = (2:ℚ) ^ (c.toNat : ℕ) := by
      conv_lhs => rw [← Int.toNat_of_nonneg hc]
      exact zpow_natCast 2 c.toNat
    rw [hzc, div_lt_iff₀ hbq,
      show (2:ℚ) ^ (c.toNat : ℕ) * (b:ℚ) = ((b * 2 ^ c.toNat : ℤ) : ℚ) by push_cast; ring]
    exact Int.cast_lt.symm
  · rename_i hc
    push_neg at hc
    rw [decide_eq_true_eq]
    have hzc : (2:ℚ) ^ c = ((2:ℚ) ^ ((-c).toNat : ℕ))⁻¹ := by
      rw [← zpow_natCast (2:ℚ) (-c).toNat, Int.toNat_of_nonneg (by omega : 0 ≤ -c),
        zpow_neg, inv_inv]
    have hp : (0:ℚ) < (2:ℚ) ^ ((-c).toNat : ℕ) := by positivity
    rw [hzc, div_lt_iff₀ hbq, inv_mul_eq_div, lt_div_iff₀ hp,
      show (a:ℚ) * (2:ℚ) ^ ((-c).toNat : ℕ) = ((a * 2 ^ (-c).toNat : ℤ) : ℚ) by push_cast; ring]
    exact Int.cast_lt.symm

theorem fracFloorLog2_bracket (a b : Int) (ha : 0 < a) (hb : 0 < b)
    (ha' : a < 2 ^ 512) (hb' : b < 2 ^ 512) :
    (2:ℚ) ^ fracFloorLog2 a b ≤ (a : ℚ) / (b : ℚ) ∧
    (a : ℚ) / (b : ℚ) < (2:ℚ) ^ (fracFloorLog2 a b + 1) := by
  have hbq : (0:ℚ) < (b:ℚ) := by exact_mod_cast hb
  have haN : (a.toNat : ℤ) = a := Int.toNat_of_nonneg ha.le
  have hbN : (b.toNat : ℤ) = b := Int.toNat_of_nonneg hb.le
  have ha1 : 1 ≤ a.toNat := by omega
  have hb1 : 1 ≤ b.toNat := by omega
  have haB : a.toNat < 2 ^ 512 := by
    have : (a.toNat : ℤ) < ((2 ^ 512 : ℕ) : ℤ) := by rw [haN]; push_cast; exact ha'
    exact_mod_cast this
  have hbB : b.toNat < 2 ^ 512 := by
    have : (b.toNat : ℤ) < ((2 ^ 512 : ℕ) : ℤ) := by rw [hbN]; push_cast; exact hb'
    exact_mod_cast this
  obtain ⟨haL, haU⟩ := natLog2_bracket a.toNat ha1 haB
  obtain ⟨hbL, hbU⟩ := natLog2_bracket b.toNat hb1 hbB
  set La := natLog2 a.toNat with hLa
  set Lb := natLog2 b.toNat with hLb
  have haQ : ((a.toNat : ℕ) : ℚ) = (a:ℚ) := by exact_mod_cast haN
  have hbQ : ((b.toNat : ℕ) : ℚ) = (b:ℚ) := by exact_mod_cast hbN
  -- the nat brackets, cast into ℚ with integer zpow exponents
  have haLq : (2:ℚ) ^ ((La : ℤ)) ≤ (a:ℚ) := by
    rw [zpow_natCast, ← haQ]
    exact_mod_cast haL
  have haUq : (a:ℚ) < (2:ℚ) ^ ((La : ℤ) + 1) := by
    have h1 : ((La : ℤ) + 1) = ((La + 1 : ℕ) : ℤ) := by push_cast; ring
    rw [h1, zpow_natCast, ← haQ]
    exact_mod_cast haU
  have hbLq : (2:ℚ) ^ ((Lb : ℤ)) ≤ (b:ℚ) := by
    rw [zpow_natCast, ← hbQ]
    exact_mod_cast hbL
  have hbUq : (b:ℚ) < (2:ℚ) ^ ((Lb : ℤ) + 1) := by
    have h1 : ((Lb : ℤ) + 1) = ((Lb + 1 : ℕ) : ℤ) := by push_cast; ring
    rw [h1, zpow_natCast, ← hbQ]
    exact_mod_cast hbU
  -- strict two-sided bracket around the candidate exponent c = La - Lb
  have hlow : (2:ℚ) ^ ((La : ℤ) - (Lb : ℤ) - 1) < (a:ℚ) / (b:ℚ) := by
    rw [lt_div_iff₀ hbq]
    calc (2:ℚ) ^ ((La : ℤ) - (Lb : ℤ) - 1) * (b:ℚ)
        < (2:ℚ) ^ ((La : ℤ) - (Lb : ℤ) - 1) * (2:ℚ) ^ ((Lb : ℤ) + 1) :=
          mul_lt_mul_of_pos_left hbUq (zpow_pos (by norm_num) _)
      _ = (2:ℚ) ^ ((La : ℤ)) := by
          rw [← zpow_add₀ (by norm_num : (2:ℚ) ≠ 0),
            show (La : ℤ) - (Lb : ℤ) - 1 + ((Lb : ℤ) + 1) = (La : ℤ) by ring]
      _ ≤ (a:ℚ) := haLq
  have hhigh : (a:ℚ) / (b:ℚ) < (2:ℚ) ^ ((La : ℤ) - (Lb : ℤ) + 1) := by
    rw [div_lt_iff₀ hbq]
    calc (a:ℚ) < (2:ℚ) ^ ((La : ℤ) + 1) := haUq
      _ = (2:ℚ) ^ ((La : ℤ) - (Lb : ℤ) + 1) * (2:ℚ) ^ ((Lb : ℤ)) := by
          rw [← zpow_add₀ (by norm_num : (2:ℚ) ≠ 0),
            show (La : ℤ) - (Lb : ℤ) + 1 + (Lb : ℤ) = (La : ℤ) + 1 by ring]
      _ ≤ (2:ℚ) ^ ((La : ℤ) - (Lb : ℤ) + 1) * (b:ℚ) :=
          mul_le_mul_of_nonneg_left hbLq (zpow_pos (by norm_num) _).le
  simp only [fracFloorLog2]
  rw [← hLa, ← hLb]
  split
  · rename_i hsplit
    have hup := (fracLtTwoPow_iff a b ((La : ℤ) - (Lb : ℤ)) hb).mp hsplit
    constructor
    · rw [show (La : ℤ) - (Lb : ℤ) - 1 = (La : ℤ) - (Lb : ℤ) - 1 from rfl]
      exact le_of_lt hlow
    · rw [show (La : ℤ) - (Lb : ℤ) - 1 + 1 = (La : ℤ) - (Lb : ℤ) by ring]
      exact hup
  · rename_i hsplit
    have hge := mt (fracLtTwoPow_iff a b ((La : ℤ) - (Lb : ℤ)) hb).mpr
      (by simpa using hsplit)
    push_neg at hge
    exact ⟨hge, hhigh⟩

theorem fracRoundHalfEven_mul (n b : Int) (hb : 0 < b) :
    fracRoundHalfEven (n * b) b = n := by
  simp only [fracRoundHalfEven]
  rw [Int.mul_ediv_cancel n hb.ne']
  simp only [sub_self, mul_zero]
  rw [if_pos hb]

theorem fracRound64_spec (a b n : Int) (hb : 0 < b) (hbB : b < 2 ^ 400)
    (hn0 : 0 ≤ n) (hn : n < 2 ^ 53) (hab : a = n * b) :
    (fracRound64 a b).1 = n * (fracRound64 a b).2 ∧
    0 < (fracRound64 a b).2 ∧ (fracRound64 a b).2 ≤ 2 ^ 52 := by
  rcases eq_or_lt_of_le hn0 with h0 | hpos
  · have ha0 : a = 0 := by rw [hab, ← h0]; ring
    subst ha0
    rw [← h0]
    norm_num [fracRound64]
  · have ha : 0 < a := by rw [hab]; positivity
    have ha512 : a < 2 ^ 512 := by
      calc a = n * b := hab
        _ < 2 ^ 53 * 2 ^ 400 := mul_lt_mul'' hn hbB hn0 hb.le
        _ = 2 ^ 453 := by rw [← pow_add]
        _ < 2 ^ 512 := pow_lt_pow_right₀ (by norm_num) (by norm_num)
    have hb512 : b < 2 ^ 512 :=
      lt_trans hbB (pow_lt_pow_right₀ (by norm_num) (by norm_num))
    obtain ⟨hlo, hhi⟩ := fracFloorLog2_bracket a b ha hb ha512 hb512
    have hval : (a:ℚ) / (b:ℚ) = (n:ℚ) := by
      have hbq : ((b:ℚ)) ≠ 0 := by
        have : (0:ℚ) < (b:ℚ) := by exact_mod_cast hb
        exact this.ne'
      rw [hab]
      push_cast
      field_simp
    rw [hval] at hlo hhi
    have hnq1 : (1:ℚ) ≤ (n:ℚ) := by exact_mod_cast hpos
    have hL0 : 0 ≤ fracFloorLog2 a b := by
      by_contra hneg
      push_neg at hneg
      have h1 : (2:ℚ) ^ (fracFloorLog2 a b + 1) ≤ (2:ℚ) ^ (0:ℤ) :=
        zpow_le_zpow_right₀ (by norm_num) (by omega)
      rw [zpow_zero] at h1
      linarith
    have hL52 : fracFloorLog2 a b ≤ 52 := by
      by_contra hgt
      push_neg at hgt
      have h1 : (2:ℚ) ^ ((53:ℕ) : ℤ) ≤ (2:ℚ) ^ fracFloorLog2 a b :=
        zpow_le_zpow_right₀ (by norm_num) (by omega)
      rw [zpow_natCast] at h1
      have h2 : (n:ℚ) < (2:ℚ) ^ (53:ℕ) := by
        calc (n:ℚ) < ((2 ^ 53 : ℤ) : ℚ) := by exact_mod_cast hn
          _ = (2:ℚ) ^ (53:ℕ) := by push_cast; ring
      linarith
    simp only [fracRound64]
    rw [if_neg ha.ne']
    by_cases he : 0 ≤ fracFloorLog2 a b - 52
    · have he0 : fracFloorLog2 a b - 52 = 0 := by omega
      rw [if_pos he, he0]
      refine ⟨?_, by norm_num, by norm_num⟩
      simp only [Int.toNat_zero, pow_zero, mul_one]
      rw [hab, fracRoundHalfEven_mul n b hb]
    · rw [if_neg he]
      refine ⟨?_, by positivity, ?_⟩
      · simp only
        rw [hab, show (n * b) * 2 ^ (-(fracFloorLog2 (n * b) b - 52)).toNat =
            (n * 2 ^ (-(fracFloorLog2 (n * b) b - 52)).toNat) * b by ring,
          fracRoundHalfEven_mul _ b hb]
      · simp only
        have hkle : (-(fracFloorLog2 a b - 52)).toNat ≤ 52 := by omega
        exact pow_le_pow_right₀ (by norm_num) hkle

theorem wrap64_eq_self (x : Int) (h1 : -(2 ^ 63) ≤ x) (h2 : x < 2 ^ 63) :
    wrap64 x = x := by
  unfold wrap64
  have hm : (x + 2 ^ 63) % 2 ^ 64 = x + 2 ^ 63 := by
    apply Int.emod_eq_of_lt
    · norm_num at h1 ⊢
      linarith
    · norm_num at h2 ⊢
      linarith
  rw [hm]
  ring

/-- C6 (amended): the round-trip identity holds exactly in the regime
where every float64 step of BytesToRatio is exact: for every totalMemory
T above 0 and every ratio 100 * k with k at least 0, k * T below 2^53
and 100 * k below 2^53, RatioToBytes yields exactly k * T bytes and
BytesToRatio maps them back to exactly 100 * k.  Beyond the 2^53 float64
precision boundary the identity fails on the code (see the
counterexample), and for 100 * k * T at or above 2^63 RatioToBytes
additionally wraps at int64. -/
theorem memRatio_roundtrip (k totalMemory : Int)
    (hk : 0 ≤ k) (hT : 0 < totalMemory)
    (hkT : k * totalMemory < 2 ^ 53) (hk100 : 100 * k < 2 ^ 53) :
    memBytesToRatio (memRatioToBytes (100 * k) totalMemory) totalMemory = 100 * k := by
  have hkT0 : 0 ≤ k * totalMemory := mul_nonneg hk hT.le
  have hw : wrap64 (100 * k * totalMemory) = 100 * k * totalMemory := by
    apply wrap64_eq_self
    · have : (0:ℤ) ≤ 100 * k * totalMemory := by positivity
      have h63 : (0:ℤ) < 2 ^ 63 := by positivity
      linarith
    · have h1 : 100 * (k * totalMemory) < 100 * 2 ^ 53 := by
        exact (mul_lt_mul_left (by norm_num)).mpr hkT
      have h2 : (100:ℤ) * 2 ^ 53 < 2 ^ 63 := by norm_num
      calc (100:ℤ) * k * totalMemory = 100 * (k * totalMemory) := by ring
        _ < 100 * 2 ^ 53 := h1
        _ < 2 ^ 63 := h2
  have hbytes : memRatioToBytes (100 * k) totalMemory = k * totalMemory := by
    unfold memRatioToBytes
    rw [hw, mul_assoc]
    exact Int.mul_tdiv_cancel_left (k * totalMemory) (by norm_num)
  rw [hbytes]
  rcases eq_or_lt_of_le hk with hk0 | hkpos
  · rw [← hk0]
    have hz : ∀ x : Int, fracRound64 0 x = (0, 1) := fun x => by
      norm_num [fracRound64]
    norm_num [memBytesToRatio, gpuMemRatioFloatFrac, hz]
  · have hT53 : totalMemory < 2 ^ 53 :=
      lt_of_le_of_lt (le_mul_of_one_le_left hT.le hkpos) hkT
    have hk53 : k < 2 ^ 53 :=
      lt_of_le_of_lt (le_mul_of_one_le_right hk hT) hkT
    have hf1 := fracRound64_spec (k * totalMemory) 1 (k * totalMemory)
      one_pos (by norm_num) hkT0 hkT (by ring)
    have hf2 := fracRound64_spec totalMemory 1 totalMemory
      one_pos (by norm_num) hT.le hT53 (by ring)
    simp only [memBytesToRatio, gpuMemRatioFloatFrac]
    set f1 := fracRound64 (k * totalMemory) 1 with hf1def
    set f2 := fracRound64 totalMemory 1 with hf2def
    have hf2pos : 0 < f2.1 := by
      rw [hf2.1]
      exact mul_pos hT hf2.2.1
    have hbpos : 0 < f1.2 * f2.1 := mul_pos hf1.2.1 hf2pos
    have hf2bound : f2.1 ≤ 2 ^ 53 * 2 ^ 52 := by
      rw [hf2.1]
      exact mul_le_mul hT53.le hf2.2.2 hf2.2.1.le (by positivity)
    have hbbound : f1.2 * f2.1 < 2 ^ 400 := by
      calc f1.2 * f2.1 ≤ 2 ^ 52 * (2 ^ 53 * 2 ^ 52) :=
          mul_le_mul hf1.2.2 hf2bound hf2pos.le (by positivity)
        _ = 2 ^ 157 := by rw [← pow_add, ← pow_add]
        _ < 2 ^ 400 := pow_lt_pow_right₀ (by norm_num) (by norm_num)
    have hq := fracRound64_spec (f1.1 * f2.2) (f1.2 * f2.1) k
      hbpos hbbound hk hk53 (by rw [hf1.1, hf2.1]; ring)
    set q := fracRound64 (f1.1 * f2.2) (f1.2 * f2.1) with hqdef
    have hfin := fracRound64_spec (q.1 * 100) q.2 (100 * k)
      hq.2.1 (lt_of_le_of_lt hq.2.2 (pow_lt_pow_right₀ (by norm_num) (by norm_num)))
      (by positivity) hk100 (by rw [hq.1]; ring)
    rw [hfin.1]
    exact Int.mul_tdiv_cancel (100 * k) hfin.2.1.ne'

/-- Witness for C6 (amended): ratio 300 against totalMemory 7 lies well
inside the float64-exact regime and survives the round trip. -/
theorem memRatio_roundtrip_witness :
    memBytesToRatio (memRatioToBytes (100 * 3) 7) 7 = 100 * 3 :=
  memRatio_roundtrip 3 7 (by decide) (by decide) (by decide) (by decide)

/-- Counterexample for C6 as stated: with k 3 and totalMemory
3002399751580331, RatioToBytes(300, T) is exactly 3 * T =
9007199254740993 = 2^53 + 1, and BytesToRatio maps it back to 299, not
300: the float64 conversion of 2^53 + 1 already loses the final bit. -/
theorem memRatio_roundtrip_fails_beyond_float_precision :
    memRatioToBytes (100 * 3) 3002399751580331 = 9007199254740993 ∧
    memBytesToRatio 9007199254740993 3002399751580331 = 299 := by
  decide

/-- C7 (amended): the unit normalizers have no error path at all: both
return plain Quantity values.  memRatioToBytes divides by the constant
100, never by totalMemory, so with totalMemory zero it returns the
numeric result 0 for every ratio rather than failing.  (The
bytes-to-ratio direction's float64 division by zero yields a non-finite
intermediate whose int64 conversion Go leaves implementation-defined; it
does not fail either, and callers must guard against a zero-capacity
device set.) -/
theorem memRatioToBytes_zero_total (ratio : Int) :
    memRatioToBytes ratio 0 = 0 := by
  unfold memRatioToBytes wrap64
  norm_num

/-- Counterexample for C7 as stated: with totalMemory 0 and ratio 50,
memRatioToBytes returns the numeric result 0; there is no divide-by-zero
error, nor any error return at all. -/
theorem memRatioToBytes_zero_total_numeric :
    memRatioToBytes 50 0 = 0 := by
  decide

/-- C8 (amended): the memory-statistics parser fails only when the file
itself is absent or unreadable; a present file always yields a record,
with a non-numeric value in a required field leaving that field at zero
rather than failing, and for the well-formed file with all fields
present the record holds the exact numeric field values of the file
(the values of Test_readMemInfo). -/
theorem readMemInfo_contract :
    readMemInfo none = none ∧
    (∀ lines : List (String × String), (readMemInfo (some lines)).isSome = true) ∧
    readMemInfo (some memInfoLinesValid) = some memInfoExpectedValid ∧
    readMemInfo (some memInfoLinesInvalid) = some memInfoExpectedInvalid := by
  refine ⟨rfl, fun lines => rfl, by decide, by decide⟩

/-- Counterexample for C8 as stated: on the malformed file of
Test_readMemInfo, whose required field Cached carries the non-numeric
token invalidField, the parser does not fail with a parse error: it
returns the record with Cached at zero and every other field exact,
exactly as the test in src/unnamed/part_000 lines 128-149 expects. -/
theorem readMemInfo_nonNumeric_succeeds :
    readMemInfo (some memInfoLinesInvalid) = some { memInfoExpectedValid with Cached := 0 } := by
  decide

/-! Helper lemmas for the container patch loop. -/

theorem patchContainers_no_patch (cs : List Container) (req : ResourceList)
    (h : ∀ c ∈ cs, containerNeedsPatch c = false) :
    patchContainers cs req = cs := by
  induction cs with
  | nil => rfl
  | cons c rest ih =>
    have hc := h c (List.mem_cons_self c rest)
    have hrest : ∀ c' ∈ rest, containerNeedsPatch c' = false :=
      fun c' hc' => h c' (List.mem_cons_of_mem c hc')
    unfold patchContainers
    cases hr : c.requests with
    | none => rw [ih hrest]
    | some reqs =>
      have hgpu : hasAnyGPUResource reqs = false := by
        unfold containerNeedsPatch at hc
        rw [hr] at hc
        exact hc
      simp [hgpu, ih hrest]

theorem patchContainers_first (pre : List Container) (c : Container)
    (post : List Container) (reqs req : ResourceList)
    (hpre : ∀ c' ∈ pre, containerNeedsPatch c' = false)
    (hc : c.requests = some reqs) (hgpu : hasAnyGPUResource reqs = true) :
    patchContainers (pre ++ c :: post) req =
      pre ++ { c with requests := some (patchGPUResource reqs req) } :: post := by
  induction pre with
  | nil =>
    simp only [List.nil_append]
    unfold patchContainers
    rw [hc]
    simp [hgpu]
  | cons p rest ih =>
    have hp := hpre p (List.mem_cons_self p rest)
    have hrest : ∀ c' ∈ rest, containerNeedsPatch c' = false :=
      fun c' hc' => hpre c' (List.mem_cons_of_mem p hc')
    simp only [List.cons_append]
    unfold patchContainers
    cases hr : p.requests with
    | none => rw [ih hrest]
    | some preqs =>
      have hg : hasAnyGPUResource preqs = false := by
        unfold containerNeedsPatch at hp
        rw [hr] at hp
        exact hp
      simp [hg, ih hrest]

/-- C9: for every pod and canonical request, patchContainerGPUResource
is a no-op when no container's request map mentions a recognized GPU
resource name, and otherwise it overwrites exactly the first container
whose non-nil request map mentions some GPU resource name, setting its
core-share, memory-bytes and memory-ratio entries to the canonical
values while every other container, and the rest of the pod, stay
unchanged. -/
theorem patchContainerGPUResource_spec (pod : Pod) (req : ResourceList) :
    ((∀ c ∈ pod.spec.containers, containerNeedsPatch c = false) →
      patchContainerGPUResource pod req = pod) ∧
    (∀ pre c post reqs,
      pod.spec.containers = pre ++ c :: post →
      (∀ c' ∈ pre, containerNeedsPatch c' = false) →
      c.requests = some reqs →
      hasAnyGPUResource reqs = true →
      patchContainerGPUResource pod req =
        { pod with
            spec.containers :=
              pre ++ { c with requests := some (patchGPUResource reqs req) } :: post }) := by
  constructor
  · intro h
    unfold patchContainerGPUResource
    rw [patchContainers_no_patch pod.spec.containers req h]
  · intro pre c post reqs hsplit hpre hc hgpu
    unfold patchContainerGPUResource
    rw [hsplit, patchContainers_first pre c post reqs req hpre hc hgpu]

/-- Witness for C9: in a pod whose first container requests only cpu and
whose second requests one native whole GPU, the patch rewrites exactly
the second container. -/
theorem patchContainerGPUResource_spec_witness :
    patchContainerGPUResource
      { spec := { containers :=
          [{ name := "main", requests := some { others := [("cpu", 1000)] } },
           { name := "gpu-worker", requests := some { nvidiaGPU := some 1 } }] } }
      { gpuCore := some 100, gpuMemory := some 1024, gpuMemoryRatio := some 100 } =
      { spec := { containers :=
          [{ name := "main", requests := some { others := [("cpu", 1000)] } }] ++
          { name := "gpu-worker",
            requests := some (patchGPUResource { nvidiaGPU := some 1 }
              { gpuCore := some 100, gpuMemory := some 1024,
                gpuMemoryRatio := some 100 }) } :: [] } } :=
  (patchContainerGPUResource_spec
      { spec := { containers :=
          [{ name := "main", requests := some { others := [("cpu", 1000)] } },
           { name := "gpu-worker", requests := some { nvidiaGPU := some 1 } }] } }
      { gpuCore := some 100, gpuMemory := some 1024, gpuMemoryRatio := some 100 }).2
    [{ name := "main", requests := some { others := [("cpu", 1000)] } }]
    { name := "gpu-worker", requests := some { nvidiaGPU := some 1 } }
    [] { nvidiaGPU := some 1 } rfl (by decide) rfl (by decide)

/-! Helper lemmas for association-list map reads and writes. -/

theorem getKV_setKV_same (m : List (String × String)) (k v : String) :
    getKV (setKV m k v) k = v := by
  induction m with
  | nil => simp [setKV, getKV]
  | cons kv rest ih =>
    obtain ⟨k', v'⟩ := kv
    by_cases h : k' = k
    · simp [setKV, getKV, h]
    · simp [setKV, getKV, h, ih]

theorem getKV_setKV_ne (m : List (String × String)) (k k' v : String)
    (h : k' ≠ k) :
    getKV (setKV m k' v) k = getKV m k := by
  induction m with
  | nil => simp [setKV, getKV, h]
  | cons kv rest ih =>
    obtain ⟨k'', v''⟩ := kv
    by_cases h2 : k'' = k'
    · simp [setKV, getKV, h2, h]
    · by_cases h3 : k'' = k
      · simp [setKV, getKV, h2, h3, Ne.symm h]
      · simp [setKV, getKV, h2, h3, ih]

/-- C10: for every reservation r, the placeholder pod NewReservePod r is
always recognized as a reserve pod, because the reserve-pod annotation
is stamped to "true" after every template and reservation annotation is
copied, and GetReservationNameFromReservePod on that pod returns exactly
r's name from the reservation-name annotation stamped alongside it. -/
theorem newReservePod_recognized (r : Reservation) :
    IsReservePod (NewReservePod r) = true ∧
    GetReservationNameFromReservePod (NewReservePod r) = r.name := by
  have hname_pod : AnnotationReservationName ≠ AnnotationReservePod := by decide
  have hnode_pod : AnnotationReservationNode ≠ AnnotationReservePod := by decide
  have hnode_name : AnnotationReservationNode ≠ AnnotationReservationName := by decide
  unfold IsReservePod GetReservationNameFromReservePod NewReservePod
  cases r.spec.template <;>
    simp only [] <;>
    (repeat' split) <;>
    simp [getKV_setKV_same, getKV_setKV_ne _ _ _ _ hname_pod,
      getKV_setKV_ne _ _ _ _ hnode_pod, getKV_setKV_ne _ _ _ _ hnode_name]

end Koordinator
